import Mathlib

/-!
# Verification of the tiled_json map loader

A shallow embedding of the `tiled_json` Rust crate (a read-only loader for
Tiled JSON maps) together with theorems settling the frozen specification
claims.  Machine integers (`u8`, `u32`, `usize`) are modelled as `Nat`
(`i32` as `Int`); no arithmetic performed by the modelled code can overflow
the original widths at the points the theorems touch.  `f64` values are
carried opaquely as `Rat`: the modelled code never performs floating-point
arithmetic on them, it only stores them or converts an `i32` exactly.
Fallible Rust functions returning `Result<_, String>` become
`Except String _`.

The external collaborator crates (`base64`, `flate2`) are not part of the
repository; following the spec's collaborator interfaces they are modelled
as an explicit record of oracle functions (`Codecs`) over which the
theorems quantify, with `none` standing for a decode/inflate error.
-/

namespace TiledJson

/-- Flip-flag constants from `lib.rs`:
`HORZ_FLIP_FLAG = 0x8000_0000`, `VERT_FLIP_FLAG = 0x4000_0000`,
`DIAG_FLIP_FLAG = 0x2000_0000`. -/
def HORZ_FLIP_FLAG : Nat := 0x80000000

def VERT_FLIP_FLAG : Nat := 0x40000000

def DIAG_FLIP_FLAG : Nat := 0x20000000

/-- `gid_flipped_horizontally` from `lib.rs`: `gid & HORZ_FLIP_FLAG > 0`. -/
def gid_flipped_horizontally (gid : Nat) : Bool :=
  Nat.land gid HORZ_FLIP_FLAG > 0

/-- `gid_flipped_vertically` from `lib.rs`: `gid & VERT_FLIP_FLAG > 0`. -/
def gid_flipped_vertically (gid : Nat) : Bool :=
  Nat.land gid VERT_FLIP_FLAG > 0

/-- `gid_flipped_diagonally` from `lib.rs`: `gid & DIAG_FLIP_FLAG > 0`. -/
def gid_flipped_diagonally (gid : Nat) : Bool :=
  Nat.land gid DIAG_FLIP_FLAG > 0

/-- `gid_flipped_hvd` from `lib.rs`. -/
def gid_flipped_hvd (gid : Nat) : Bool × Bool × Bool :=
  (Nat.land gid HORZ_FLIP_FLAG > 0,
   Nat.land gid VERT_FLIP_FLAG > 0,
   Nat.land gid DIAG_FLIP_FLAG > 0)

/-- `gid_without_flags` from `lib.rs`:
`gid & !(HORZ_FLIP_FLAG | VERT_FLIP_FLAG | DIAG_FLIP_FLAG)`.
On `u32` the complement of the three top bits is `0x1FFFFFFF`. -/
def gid_without_flags (gid : Nat) : Nat :=
  Nat.land gid 0x1FFFFFFF

/-- The external collaborator interfaces (spec §6): base64 decoding and the
two inflate routines of the `flate2` crate, modelled as oracles.  `none`
models the `Err`/`io::Error` outcome. -/
structure Codecs where
  base64Decode : String → Option (List Nat)
  zlibInflate : List Nat → Option (List Nat)
  gzipInflate : List Nat → Option (List Nat)

/-- `decompress_tile_layer_data` from `layerreader.rs` (lines 238-259):
dispatches on the compression name; `"zlib"`/`"gzip"` run the matching
inflate (failure = `false`, i.e. `none` here), every other name returns
`false` (`none`). -/
def decompress_tile_layer_data (C : Codecs) (decoded : List Nat)
    (compression : String) : Option (List Nat) :=
  match compression with
  | "zlib" => C.zlibInflate decoded
  | "gzip" => C.gzipInflate decoded
  | _ => none

/-- The word-building loop of `decode_tile_layer_data` (lines 224-234):
consecutive groups of four bytes become one little-endian `u32`
`b0 | b1 << 8 | b2 << 16 | b3 << 24`.  The Rust loop runs while
`x < size_bytes - 3` with `x += 4`; it is only reached when the buffer
length equals `size_bytes`, where the two formulations agree. -/
def toU32LE : List Nat → List Nat
  | b0 :: b1 :: b2 :: b3 :: rest =>
      (Nat.lor b0 (Nat.lor (Nat.shiftLeft b1 8)
        (Nat.lor (Nat.shiftLeft b2 16) (Nat.shiftLeft b3 24)))) :: toU32LE rest
  | _ => []

/-- The tail of `decode_tile_layer_data` (lines 216-235): an empty buffer is
success with no data (`Ok(None)`); a buffer whose length differs from
`size_bytes` is the size-mismatch error; otherwise the buffer is
reinterpreted as little-endian `u32` words. -/
def decode_bytes (vector : List Nat) (size_bytes : Nat) (name : String) :
    Except String (Option (List Nat)) :=
  if vector.isEmpty then Except.ok none
  else if vector.length ≠ size_bytes then
    Except.error ("corrupted tilelayer data for name: " ++ name)
  else Except.ok (some (toU32LE vector))

/-- `decode_tile_layer_data` from `layerreader.rs` (lines 184-236):
base64-decode the string (failure: the base64 error message); when a
non-empty compression name is present, decompress (failure: the shared
compression error message naming the scheme); then fall into the
empty/size/word stage `decode_bytes`. -/
def decode_tile_layer_data (C : Codecs) (string_data : String) (size : Nat)
    (name : String) (compression : Option String) :
    Except String (Option (List Nat)) :=
  let size_bytes := size * 4
  match C.base64Decode string_data with
  | none =>
      Except.error ("Cannot decode base64 string of tilelayer named: " ++ name)
  | some decoded =>
    match compression with
    | some c =>
      if c.isEmpty then decode_bytes decoded size_bytes name
      else
        match decompress_tile_layer_data C decoded c with
        | none =>
            Except.error ("invalid compression data in tilelayer named "
              ++ name ++ ", compression: " ++ c)
        | some decompressed => decode_bytes decompressed size_bytes name
    | none => decode_bytes decoded size_bytes name

/-- `TileLayerDataReader` from `layerreader.rs`: an untagged union of a
literal integer array and a base64 string. -/
inductive TileLayerDataReader where
  | Vector (v : List Nat)
  | Base64 (s : String)
deriving DecidableEq

/-- `get_tile_layer_data` from `layerreader.rs` (lines 163-182): a literal
vector passes through unchanged, absent data is an empty vector, a base64
string goes through `decode_tile_layer_data` with `Ok(None)` collapsed to
the empty vector (`unwrap_or_default`). -/
def get_tile_layer_data (C : Codecs) (data : Option TileLayerDataReader)
    (size : Nat) (name : String) (compression : Option String) :
    Except String (List Nat) :=
  match data with
  | some (TileLayerDataReader.Vector v) => Except.ok v
  | none => Except.ok []
  | some (TileLayerDataReader.Base64 s) =>
    match decode_tile_layer_data C s size name compression with
    | Except.error e => Except.error e
    | Except.ok v => Except.ok (v.getD [])

/-- The byte buffer after the optional decompression stage of
`decode_tile_layer_data` (lines 204-214): the decoded bytes themselves when
no compression name is present or the name is empty, otherwise the inflate
output (`none` on inflate failure or an unsupported name). -/
def post_buffer (C : Codecs) (decoded : List Nat)
    (compression : Option String) : Option (List Nat) :=
  match compression with
  | some c =>
      if c.isEmpty then some decoded
      else decompress_tile_layer_data C decoded c
  | none => some decoded

/-- `Color` from `color.rs`: four `u8` components. -/
structure Color where
  r : Nat
  g : Nat
  b : Nat
  a : Nat
deriving DecidableEq

/-- `Color::default_color` from `color.rs`: the fixed fallback (sentinel)
color `{ r: 255, g: 0, b: 255, a: 255 }`. -/
def Color.default_color : Color :=
  { r := 255, g := 0, b := 255, a := 255 }

/-- `hex_char_to_u8` from `color.rs`: hex digits map to their value, every
other character maps to `0x00` (the `_ => 0x00` arm). -/
def hex_char_to_u8 (hex : Char) : Nat :=
  match hex with
  | '0' => 0x00
  | '1' => 0x01
  | '2' => 0x02
  | '3' => 0x03
  | '4' => 0x04
  | '5' => 0x05
  | '6' => 0x06
  | '7' => 0x07
  | '8' => 0x08
  | '9' => 0x09
  | 'a' | 'A' => 0x0A
  | 'b' | 'B' => 0x0B
  | 'c' | 'C' => 0x0C
  | 'd' | 'D' => 0x0D
  | 'e' | 'E' => 0x0E
  | 'f' | 'F' => 0x0F
  | _ => 0x00

/-- `hex_set_to_u8` from `color.rs`: `(v1 << 4) + v2` (no `u8` overflow:
both values are at most 15). -/
def hex_set_to_u8 (hex1 hex2 : Char) : Nat :=
  Nat.shiftLeft (hex_char_to_u8 hex1) 4 + hex_char_to_u8 hex2

/-- `Color::new` from `color.rs` (lines 31-68): strings whose character
count is neither 7 nor 9, or whose first character is not `'#'`, yield
`default_color`; otherwise the alpha pair is read when the length is 9
(else 255) and the r/g/b pairs follow.  The Rust `unwrap_or('F')` defaults
are modelled with `headD 'F'`; they never fire because the length was
checked. -/
def Color.new (string : String) : Color :=
  let cs := string.data
  let length := cs.length
  if (length ≠ 7 ∧ length ≠ 9) ∨ cs.head? ≠ some '#' then
    Color.default_color
  else
    let rest := cs.tail
    let a := if length = 9 then
        hex_set_to_u8 (rest.headD 'F') (rest.tail.headD 'F')
      else 255
    let rest := if length = 9 then rest.tail.tail else rest
    let r := hex_set_to_u8 (rest.headD 'F') (rest.tail.headD 'F')
    let rest := rest.tail.tail
    let g := hex_set_to_u8 (rest.headD 'F') (rest.tail.headD 'F')
    let rest := rest.tail.tail
    let b := hex_set_to_u8 (rest.headD 'F') (rest.tail.headD 'F')
    { r, g, b, a }

/-- `PropertyValue` from `property.rs`: the closed union of property
payloads.  The `f64` payload of `Float` is carried as `Rat` (stored, never
computed with). -/
inductive PropertyValue where
  | StringV (s : String)
  | Int (i : Int)
  | Float (f : Rat)
  | Bool (b : Bool)
  | Color (c : Color)
  | File (s : String)
deriving DecidableEq

/-- `Property` from `property.rs`: a name together with a resolved value. -/
structure Property where
  name : String
  value : PropertyValue
deriving DecidableEq

/-- `PropertyLoader` from `property.rs`: the raw `(name, type, value)`
triple as deserialized, before type reconciliation. -/
structure PropertyLoader where
  name : String
  ptype : String
  value : PropertyValue
deriving DecidableEq

/-- The type-name constants of `property.rs`. -/
def TYPE_FILE : String := "file"

def TYPE_STRING : String := "string"

def TYPE_FLOAT : String := "float"

/-- `From<PropertyLoader> for Property` from `property.rs` (lines 192-222):
booleans, floats and colors pass through; an integer declared `"float"` is
coerced to `Float` (`x as f64`, exact for every `i32`); strings resolve to
`StringV`/`File`/parsed `Color` according to the declared type.  The
function is total: no input is rejected. -/
def property_from (pl : PropertyLoader) : Property :=
  let v := match pl.value with
    | PropertyValue.Bool x => PropertyValue.Bool x
    | PropertyValue.Float x => PropertyValue.Float x
    | PropertyValue.Color x => PropertyValue.Color x
    | PropertyValue.Int x =>
        if pl.ptype = TYPE_FLOAT then PropertyValue.Float (x : Rat)
        else PropertyValue.Int x
    | PropertyValue.StringV x =>
        if pl.ptype = TYPE_STRING then PropertyValue.StringV x
        else if pl.ptype = TYPE_FILE then PropertyValue.File x
        else PropertyValue.Color (Color.new x)
    | PropertyValue.File x =>
        if pl.ptype = TYPE_STRING then PropertyValue.StringV x
        else if pl.ptype = TYPE_FILE then PropertyValue.File x
        else PropertyValue.Color (Color.new x)
  { name := pl.name, value := v }

/-- `Object` from `object.rs`, kept opaque: none of the verified claims
inspects an object's fields, objects are only carried through layer
resolution unchanged. -/
structure Object where
deriving DecidableEq

/-- `DrawOrder` from `layer.rs`. -/
inductive DrawOrder where
  | TopDown
  | Index
deriving DecidableEq

/-- `LayerType` from `layer.rs`. -/
inductive LayerType where
  | TileLayer
  | ObjectGroup
  | ImageLayer
  | Group
deriving DecidableEq

/-- The layer type and draw-order string constants of `layer.rs`. -/
def DRAWORDER_TOPDOWN : String := "topdown"

def DRAWORDER_INDEX : String := "index"

def LAYER_TILE : String := "tilelayer"

def LAYER_OBJGROUP : String := "objectgroup"

def LAYER_IMAGE : String := "imagelayer"

def LAYER_GROUP : String := "group"

mutual
/-- `Layer` from `layer.rs`: the common fields plus the resolved
`LayerDataContainer`.  `f64` fields (`opacity`, `offsetx`, `offsety`) are
carried as `Rat`. -/
inductive Layer where
  | mk (id : Option Nat) (name : String) (opacity : Rat) (visible : Bool)
      (width height : Nat) (offsetx offsety : Rat) (ltype : LayerType)
      (layerdata : LayerDataContainer) (properties : List Property)

/-- `LayerDataContainer` from `layer.rs`: the four mutually exclusive layer
bodies. -/
inductive LayerDataContainer where
  | TileLayer (data : List Nat)
  | ObjectGroup (draworder : DrawOrder) (objects : List Object)
  | ImageLayer (image : String) (transparentcolor : Option Color)
  | Group (layers : List Layer)
end

/-- Field projection for `Layer.layerdata`. -/
def Layer.layerdata : Layer → LayerDataContainer
  | Layer.mk _ _ _ _ _ _ _ _ _ d _ => d

/-- Field projection for `Layer.name`. -/
def Layer.name : Layer → String
  | Layer.mk _ n _ _ _ _ _ _ _ _ _ => n

/-- Field projection for `Layer.width`. -/
def Layer.width : Layer → Nat
  | Layer.mk _ _ _ _ w _ _ _ _ _ _ => w

/-- Field projection for `Layer.height`. -/
def Layer.height : Layer → Nat
  | Layer.mk _ _ _ _ _ h _ _ _ _ _ => h

/-- Field projection for `Layer.ltype`. -/
def Layer.ltype : Layer → LayerType
  | Layer.mk _ _ _ _ _ _ _ _ t _ _ => t

/-- `LayerReader` from `layerreader.rs`: the transient all-optional record
every layer variant is deserialized into.  Serde defaults (`0`, `""`,
`None`, opacity `1.0`, visible `true`) are applied by the deserializer
before this record is consumed, so the fields here are plain values. -/
structure LayerReader where
  height : Nat
  width : Nat
  ltype : String
  id : Option Nat
  name : String
  compression : Option String
  offsetx : Rat
  offsety : Rat
  opacity : Rat
  visible : Bool
  transparentcolor : Option Color
  draworder : Option String
  image : Option String
  data : Option TileLayerDataReader
  layers : Option (List Layer)
  objects : Option (List Object)
  properties : Option (List Property)

/-- The id formatting of the unknown-layer-type error in `layerreader.rs`
(lines 127-131): the id's decimal representation, or `"nil"` when absent. -/
def idString : Option Nat → String
  | some x => toString x
  | none => "nil"

/-- `TryFrom<LayerReader> for Layer` from `layerreader.rs` (lines 75-161):
the single dispatch on the `type` discriminator string into the four layer
shapes; any other string is the `invalid layer type` error carrying the
declared type, the id and the name.  The tile expected count
`(lr.width * lr.height) as usize` is a `u32` multiplication in the source
and wraps modulo `2^32`, so the product is reduced `% 4294967296` here. -/
def layer_try_from (C : Codecs) (lr : LayerReader) : Except String Layer :=
  let body : Except String (LayerType × LayerDataContainer) :=
    if lr.ltype = LAYER_TILE then
      match get_tile_layer_data C lr.data (lr.width * lr.height % 4294967296)
          lr.name lr.compression with
      | Except.error e => Except.error e
      | Except.ok data =>
          Except.ok (LayerType.TileLayer, LayerDataContainer.TileLayer data)
    else if lr.ltype = LAYER_OBJGROUP then
      let draworder :=
        if lr.draworder.getD "" = DRAWORDER_INDEX then DrawOrder.Index
        else if lr.draworder.getD "" = DRAWORDER_TOPDOWN then DrawOrder.TopDown
        else DrawOrder.TopDown
      Except.ok (LayerType.ObjectGroup,
        LayerDataContainer.ObjectGroup draworder (lr.objects.getD []))
    else if lr.ltype = LAYER_IMAGE then
      Except.ok (LayerType.ImageLayer,
        LayerDataContainer.ImageLayer (lr.image.getD "") lr.transparentcolor)
    else if lr.ltype = LAYER_GROUP then
      Except.ok (LayerType.Group, LayerDataContainer.Group (lr.layers.getD []))
    else
      Except.error ("invalid layer type " ++ lr.ltype ++ " (id: "
        ++ idString lr.id ++ ", name: " ++ lr.name ++ ")")
  match body with
  | Except.error e => Except.error e
  | Except.ok (ltype, layerdata) =>
      Except.ok (Layer.mk lr.id lr.name lr.opacity lr.visible lr.width
        lr.height lr.offsetx lr.offsety ltype layerdata
        (lr.properties.getD []))

/-- `Tileset` from `tileset.rs`, reduced to the fields the verified claims
touch: `firstgid : u32` (the remaining geometry/animation fields are plain
data never inspected by `tileset_by_gid`). -/
structure Tileset where
  firstgid : Nat
deriving DecidableEq

/-- `Map::tileset_by_gid` from `map.rs` (lines 137-145): strip the flip
flags, then scan the tileset list in reverse order and return the first
tileset whose `firstgid` is at most the stripped gid; `None` when the scan
finds nothing. -/
def tileset_by_gid (tilesets : List Tileset) (gid : Nat) : Option Tileset :=
  let cf := gid_without_flags gid
  tilesets.reverse.find? (fun i => i.firstgid ≤ cf)

/-- `Layer::is_flipped_horizontally` from `layer.rs` (lines 115-122).  The
source tests `data.len() < pos` (not `pos < data.len()`) before indexing
`data[pos]`; in the branch where it indexes, `pos > data.len()` so the Rust
access would panic — that unreachable-without-panic read is modelled with
`getD 0`. -/
def Layer.is_flipped_horizontally (l : Layer) (pos : Nat) : Bool :=
  match l.layerdata with
  | LayerDataContainer.TileLayer data =>
      if data.length < pos then gid_flipped_horizontally (data.getD pos 0)
      else false
  | _ => false

/-- `Layer::is_flipped_vertically` from `layer.rs` (lines 130-137), with the
same `data.len() < pos` guard as `is_flipped_horizontally`. -/
def Layer.is_flipped_vertically (l : Layer) (pos : Nat) : Bool :=
  match l.layerdata with
  | LayerDataContainer.TileLayer data =>
      if data.length < pos then gid_flipped_vertically (data.getD pos 0)
      else false
  | _ => false

/-- `Layer::is_flipped_diagonally` from `layer.rs` (lines 145-152), with the
same `data.len() < pos` guard. -/
def Layer.is_flipped_diagonally (l : Layer) (pos : Nat) : Bool :=
  match l.layerdata with
  | LayerDataContainer.TileLayer data =>
      if data.length < pos then gid_flipped_diagonally (data.getD pos 0)
      else false
  | _ => false

/-- `Layer::is_flipped_hvd` from `layer.rs` (lines 162-169), with the same
`data.len() < pos` guard. -/
def Layer.is_flipped_hvd (l : Layer) (pos : Nat) : Bool × Bool × Bool :=
  match l.layerdata with
  | LayerDataContainer.TileLayer data =>
      if data.length < pos then gid_flipped_hvd (data.getD pos 0)
      else (false, false, false)
  | _ => (false, false, false)

/-- `Layer::get_gid_without_flags` from `layer.rs` (lines 176-183), with the
same `data.len() < pos` guard and `0` in the fall-through. -/
def Layer.get_gid_without_flags (l : Layer) (pos : Nat) : Nat :=
  match l.layerdata with
  | LayerDataContainer.TileLayer data =>
      if data.length < pos then gid_without_flags (data.getD pos 0)
      else 0
  | _ => 0

/-- Modelled from the spec: a hexadecimal digit as understood by the
`#rrggbb` / `#aarrggbb` color notation. -/
def isHexDigit (c : Char) : Bool :=
  ('0' ≤ c ∧ c ≤ '9') ∨ ('a' ≤ c ∧ c ≤ 'f') ∨ ('A' ≤ c ∧ c ≤ 'F')

/-- Modelled from the spec: a well-formed `#rrggbb` or `#aarrggbb` hex color
string — 7 or 9 characters, a leading `'#'`, every following character a
hex digit.  This is the spec-side notion against which the source's
`Color::new` fallback behavior is compared. -/
def wellFormedHexColor (s : String) : Bool :=
  (s.data.length = 7 ∨ s.data.length = 9) ∧ s.data.head? = some '#' ∧
    s.data.tail.all isHexDigit

/-- Discriminator test used when stating that a resolved property value is
not integer-tagged. -/
def isIntValue : PropertyValue → Bool
  | PropertyValue.Int _ => true
  | _ => false

/-- Concrete codec oracles for witness instances: every base64 decode
yields the four bytes `[1, 0, 0, 0]` and both inflate routines fail (a
corrupt stream). -/
def codecsW : Codecs :=
  { base64Decode := fun _ => some [1, 0, 0, 0]
    zlibInflate := fun _ => none
    gzipInflate := fun _ => none }

/-- Concrete codec oracles for witness instances: every base64 decode
yields the empty byte buffer. -/
def codecsE : Codecs :=
  { base64Decode := fun _ => some []
    zlibInflate := fun _ => none
    gzipInflate := fun _ => none }

/-- A concrete raw tile-layer record of width 2, height 2 whose `data` is
the literal integer array `[1, 2, 3]` (CSV-style authoring of the wrong
length). -/
def lrVec : LayerReader :=
  { height := 2, width := 2, ltype := "tilelayer", id := some 1, name := "t"
    compression := none, offsetx := 0, offsety := 0, opacity := 1
    visible := true, transparentcolor := none, draworder := none
    image := none, data := some (TileLayerDataReader.Vector [1, 2, 3])
    layers := none, objects := none, properties := none }

/-- A concrete raw layer record whose `type` discriminator is `"bogus"`. -/
def lrBogus : LayerReader :=
  { height := 3, width := 4, ltype := "bogus", id := some 7, name := "lay"
    compression := none, offsetx := 0, offsety := 0, opacity := 1
    visible := true, transparentcolor := none, draworder := none
    image := none, data := none
    layers := none, objects := none, properties := none }

/-- A concrete raw tile-layer record of width 10, height 10 with no `data`
field. -/
def lrAbsent : LayerReader :=
  { height := 10, width := 10, ltype := "tilelayer", id := some 2, name := "e"
    compression := none, offsetx := 0, offsety := 0, opacity := 1
    visible := true, transparentcolor := none, draworder := none
    image := none, data := none
    layers := none, objects := none, properties := none }

/-- A concrete tile layer whose single stored gid has the horizontal flip
flag set (`0x80000001`). -/
def layerFlip : Layer :=
  Layer.mk none "t" 1 true 1 1 0 0 LayerType.TileLayer
    (LayerDataContainer.TileLayer [0x80000001]) []
theorem toU32LE_length (l : List Nat) : (toU32LE l).length = l.length / 4 := by
  induction l using toU32LE.induct with
  | case1 b0 b1 b2 b3 rest ih =>
      simp only [toU32LE, List.length_cons, ih]
      omega
  | case2 l h =>
      match l with
      | [] => simp [toU32LE]
      | [a] => simp [toU32LE]
      | [a, b] => simp [toU32LE]
      | [a, b, c] => simp [toU32LE]
      | a :: b :: c :: d :: r => exact absurd rfl (h a b c d r)

theorem decode_after_post (C : Codecs) (s : String) (size : Nat)
    (name : String) (compression : Option String) (decoded buf : List Nat)
    (hb : C.base64Decode s = some decoded)
    (hp : post_buffer C decoded compression = some buf) :
    decode_tile_layer_data C s size name compression =
      decode_bytes buf (size * 4) name := by
  unfold decode_tile_layer_data
  rw [hb]
  unfold post_buffer at hp
  match compression with
  | none => simp at hp; simp [hp]
  | some c =>
    by_cases hc : c.isEmpty
    · simp [hc] at hp ⊢
      rw [hp]
    · simp [hc] at hp ⊢
      rw [hp]


theorem decompress_unsupported (C : Codecs) (decoded : List Nat) (c : String)
    (h1 : c ≠ "zlib") (h2 : c ≠ "gzip") :
    decompress_tile_layer_data C decoded c = none := by
  unfold decompress_tile_layer_data
  split
  · exact absurd rfl h1
  · exact absurd rfl h2
  · rfl

/-- Claim C1: for a tile-layer decode from a base64 string source, once the
base64 decode (and the decompression demanded by a non-empty compression
name) has produced a non-empty byte buffer, the decode succeeds exactly
when the buffer length equals `expected_count * 4`; on success the buffer
is reinterpreted as little-endian 32-bit words producing exactly
`expected_count` gids, and on any length mismatch the result is the
size-mismatch error — bytes are never truncated or zero-padded. -/
theorem claim_C1 (C : Codecs) (s name : String) (compression : Option String)
    (size : Nat) (decoded buf : List Nat)
    (hb : C.base64Decode s = some decoded)
    (hp : post_buffer C decoded compression = some buf)
    (hne : buf ≠ []) :
    ((∃ r, decode_tile_layer_data C s size name compression = Except.ok r) ↔
      buf.length = size * 4)
    ∧ (buf.length = size * 4 →
        decode_tile_layer_data C s size name compression =
          Except.ok (some (toU32LE buf)) ∧ (toU32LE buf).length = size)
    ∧ (buf.length ≠ size * 4 →
        decode_tile_layer_data C s size name compression =
          Except.error ("corrupted tilelayer data for name: " ++ name)) := by
  have hd := decode_after_post C s size name compression decoded buf hb hp
  rw [hd]
  unfold decode_bytes
  have hne' : buf.isEmpty = false := by
    cases buf with
    | nil => exact absurd rfl hne
    | cons a l => rfl
  rw [hne']
  by_cases hl : buf.length = size * 4
  · have hlen : (toU32LE buf).length = size := by
      rw [toU32LE_length, hl]
      omega
    simp [hl, hlen]
  · simp [hl]

/-- Witness for claim C1 at the concrete buffer `[1, 0, 0, 0]` with
`expected_count = 1`. -/
theorem claim_C1_witness :
    ((∃ r, decode_tile_layer_data codecsW "x" 1 "L" none = Except.ok r) ↔
      ([1, 0, 0, 0] : List Nat).length = 1 * 4)
    ∧ (([1, 0, 0, 0] : List Nat).length = 1 * 4 →
        decode_tile_layer_data codecsW "x" 1 "L" none =
          Except.ok (some (toU32LE [1, 0, 0, 0]))
          ∧ (toU32LE [1, 0, 0, 0]).length = 1)
    ∧ (([1, 0, 0, 0] : List Nat).length ≠ 1 * 4 →
        decode_tile_layer_data codecsW "x" 1 "L" none =
          Except.error ("corrupted tilelayer data for name: " ++ "L")) :=
  claim_C1 codecsW "x" "L" none 1 [1, 0, 0, 0] [1, 0, 0, 0] rfl rfl
    (by decide)

/-- Counterexample to claim C2: an unsupported compression name (the first
decode, name `"L"`, scheme `"x, compression: zlib"`, which is neither
`"zlib"` nor `"gzip"`) and a genuine zlib stream failure (the second
decode, name `"L, compression: x"`, scheme `"zlib"`, inflate failing)
produce the byte-identical error value, so the two failure causes are not
two distinguishable failure classes. -/
theorem claim_C2_counterexample :
    decode_tile_layer_data codecsW "x" 1 "L" (some "x, compression: zlib") =
      Except.error
        "invalid compression data in tilelayer named L, compression: x, compression: zlib"
    ∧ decode_tile_layer_data codecsW "x" 1 "L, compression: x" (some "zlib") =
      Except.error
        "invalid compression data in tilelayer named L, compression: x, compression: zlib"
    ∧ ("x, compression: zlib" : String) ≠ "zlib"
    ∧ ("x, compression: zlib" : String) ≠ "gzip"
    ∧ codecsW.zlibInflate [1, 0, 0, 0] = none :=
  ⟨by rfl, by rfl, by decide, by decide, rfl⟩

/-- Claim C2 as amended: with a non-empty compression name, a name other
than `"zlib"`/`"gzip"` fails and an inflate stream failure fails, but both
with the one shared error message
`invalid compression data in tilelayer named {name}, compression: {c}` —
a single failure class for the two causes, distinguished from the base64
(`InvalidEncoding`) and size (`SizeMismatch`) error messages. -/
theorem claim_C2 (C : Codecs) (s name c : String) (size : Nat)
    (decoded : List Nat) (hb : C.base64Decode s = some decoded)
    (hc : ¬ c.isEmpty) :
    ((c ≠ "zlib" ∧ c ≠ "gzip") →
      decode_tile_layer_data C s size name (some c) =
        Except.error ("invalid compression data in tilelayer named "
          ++ name ++ ", compression: " ++ c))
    ∧ (c = "zlib" → C.zlibInflate decoded = none →
      decode_tile_layer_data C s size name (some c) =
        Except.error ("invalid compression data in tilelayer named "
          ++ name ++ ", compression: " ++ c))
    ∧ (c = "gzip" → C.gzipInflate decoded = none →
      decode_tile_layer_data C s size name (some c) =
        Except.error ("invalid compression data in tilelayer named "
          ++ name ++ ", compression: " ++ c))
    ∧ (∀ m : String,
      ("invalid compression data in tilelayer named " ++ name
          ++ ", compression: " ++ c) ≠
        ("Cannot decode base64 string of tilelayer named: " ++ m)
      ∧ ("invalid compression data in tilelayer named " ++ name
          ++ ", compression: " ++ c) ≠
        ("corrupted tilelayer data for name: " ++ m)) := by
  have herr : ∀ h : decompress_tile_layer_data C decoded c = none,
      decode_tile_layer_data C s size name (some c) =
        Except.error ("invalid compression data in tilelayer named "
          ++ name ++ ", compression: " ++ c) := by
    intro h
    unfold decode_tile_layer_data
    rw [hb]
    simp only [hc, Bool.false_eq_true, if_false, h]
  refine ⟨fun ⟨h1, h2⟩ => herr (decompress_unsupported C decoded c h1 h2),
    fun h1 h2 => herr ?_, fun h1 h2 => herr ?_, fun m => ⟨?_, ?_⟩⟩
  · subst h1; unfold decompress_tile_layer_data; exact h2
  · subst h1; unfold decompress_tile_layer_data; exact h2
  · intro h
    have hd := congrArg String.data h
    simp only [String.data_append] at hd
    simp at hd
  · intro h
    have hd := congrArg String.data h
    simp only [String.data_append] at hd
    simp at hd

/-- Witness for the amended claim C2 at the unsupported scheme `"lz4"`. -/
theorem claim_C2_witness :
    ((("lz4" : String) ≠ "zlib" ∧ ("lz4" : String) ≠ "gzip") →
      decode_tile_layer_data codecsW "x" 1 "L" (some "lz4") =
        Except.error ("invalid compression data in tilelayer named "
          ++ "L" ++ ", compression: " ++ "lz4"))
    ∧ (("lz4" : String) = "zlib" → codecsW.zlibInflate [1, 0, 0, 0] = none →
      decode_tile_layer_data codecsW "x" 1 "L" (some "lz4") =
        Except.error ("invalid compression data in tilelayer named "
          ++ "L" ++ ", compression: " ++ "lz4"))
    ∧ (("lz4" : String) = "gzip" → codecsW.gzipInflate [1, 0, 0, 0] = none →
      decode_tile_layer_data codecsW "x" 1 "L" (some "lz4") =
        Except.error ("invalid compression data in tilelayer named "
          ++ "L" ++ ", compression: " ++ "lz4"))
    ∧ (∀ m : String,
      ("invalid compression data in tilelayer named " ++ "L"
          ++ ", compression: " ++ "lz4") ≠
        ("Cannot decode base64 string of tilelayer named: " ++ m)
      ∧ ("invalid compression data in tilelayer named " ++ "L"
          ++ ", compression: " ++ "lz4") ≠
        ("corrupted tilelayer data for name: " ++ m)) :=
  claim_C2 codecsW "x" "L" "lz4" 1 [1, 0, 0, 0] rfl (by decide)

/-- Counterexample to claim C3: the raw tile-layer record `lrVec` (width 2,
height 2) with the literal integer array `[1, 2, 3]` resolves successfully
to a TileGrid whose stored sequence has length 3, which is neither
`width * height = 4` nor 0 — the CSV-style vector passthrough performs no
length check. -/
theorem claim_C3_counterexample :
    layer_try_from codecsW lrVec =
      Except.ok (Layer.mk (some 1) "t" 1 true 2 2 0 0 LayerType.TileLayer
        (LayerDataContainer.TileLayer [1, 2, 3]) [])
    ∧ lrVec.data = some (TileLayerDataReader.Vector [1, 2, 3])
    ∧ ([1, 2, 3] : List Nat).length ≠ lrVec.width * lrVec.height
    ∧ ([1, 2, 3] : List Nat).length ≠ 0 :=
  ⟨by rfl, by rfl, by decide, by decide⟩

/-- Claim C3 as amended: for every successfully resolved tile layer, the
stored gid sequence equals the authored literal array unchanged when the
data was a vector (its length is not validated), is empty when the data
was absent or the decoded byte buffer was empty, and has length
`width * height % 2^32` (the wrapped `u32` product the program computes)
when the data was a base64 string whose (possibly decompressed) buffer was
non-empty. -/
theorem claim_C3 (C : Codecs) (lr : LayerReader) (l : Layer)
    (ht : lr.ltype = LAYER_TILE)
    (hok : layer_try_from C lr = Except.ok l) :
    ∃ data, l.layerdata = LayerDataContainer.TileLayer data
      ∧ (∀ v, lr.data = some (TileLayerDataReader.Vector v) → data = v)
      ∧ (lr.data = none → data = [])
      ∧ (∀ s decoded buf, lr.data = some (TileLayerDataReader.Base64 s) →
          C.base64Decode s = some decoded →
          post_buffer C decoded lr.compression = some buf →
          (buf = [] → data = [])
          ∧ (buf ≠ [] →
              data.length = lr.width * lr.height % 4294967296)) := by
  unfold layer_try_from at hok
  simp only [ht, if_true] at hok
  cases hg : get_tile_layer_data C lr.data
      (lr.width * lr.height % 4294967296) lr.name lr.compression with
  | error e => rw [hg] at hok; exact absurd hok (by simp)
  | ok data =>
    rw [hg] at hok
    simp only at hok
    have hl : l = Layer.mk lr.id lr.name lr.opacity lr.visible lr.width
        lr.height lr.offsetx lr.offsety LayerType.TileLayer
        (LayerDataContainer.TileLayer data) (lr.properties.getD []) := by
      cases hok; rfl
    refine ⟨data, by rw [hl]; rfl, ?_, ?_, ?_⟩
    · intro v hv
      rw [hv] at hg
      unfold get_tile_layer_data at hg
      exact (Except.ok.injEq _ _ ▸ hg).symm ▸ rfl
    · intro hv
      rw [hv] at hg
      unfold get_tile_layer_data at hg
      cases hg
      rfl
    · intro s decoded buf hv hb hp
      rw [hv] at hg
      unfold get_tile_layer_data at hg
      simp only at hg
      rw [decode_after_post C s (lr.width * lr.height % 4294967296) lr.name
        lr.compression decoded buf hb hp] at hg
      constructor
      · intro hbuf
        subst hbuf
        unfold decode_bytes at hg
        simp at hg
        exact hg
      · intro hbuf
        have hne : buf.isEmpty = false := by
          cases buf with
          | nil => exact absurd rfl hbuf
          | cons a t => rfl
        unfold decode_bytes at hg
        rw [hne] at hg
        by_cases hlen : buf.length = lr.width * lr.height % 4294967296 * 4
        · simp only [hlen, ne_eq, not_true_eq_false, if_false,
            Bool.false_eq_true] at hg
          simp at hg
          rw [← hg, toU32LE_length, hlen]
          omega
        · simp [hlen] at hg

/-- Witness for the amended claim C3 at the concrete record `lrVec`. -/
theorem claim_C3_witness :
    ∃ data,
      (Layer.mk (some 1) "t" 1 true 2 2 0 0 LayerType.TileLayer
        (LayerDataContainer.TileLayer [1, 2, 3]) []).layerdata =
        LayerDataContainer.TileLayer data
      ∧ (∀ v, lrVec.data = some (TileLayerDataReader.Vector v) → data = v)
      ∧ (lrVec.data = none → data = [])
      ∧ (∀ s decoded buf,
          lrVec.data = some (TileLayerDataReader.Base64 s) →
          codecsW.base64Decode s = some decoded →
          post_buffer codecsW decoded lrVec.compression = some buf →
          (buf = [] → data = [])
          ∧ (buf ≠ [] →
              data.length = lrVec.width * lrVec.height % 4294967296)) :=
  claim_C3 codecsW lrVec
    (Layer.mk (some 1) "t" 1 true 2 2 0 0 LayerType.TileLayer
      (LayerDataContainer.TileLayer [1, 2, 3]) []) rfl rfl

/-- Claim C4: a raw layer record whose `type` discriminator is none of
`"tilelayer"`, `"objectgroup"`, `"imagelayer"`, `"group"` resolves to the
unknown-layer-type error carrying the declared type, the id and the name;
it never defaults to one of the four known shapes. -/
theorem claim_C4 (C : Codecs) (lr : LayerReader)
    (h1 : lr.ltype ≠ LAYER_TILE) (h2 : lr.ltype ≠ LAYER_OBJGROUP)
    (h3 : lr.ltype ≠ LAYER_IMAGE) (h4 : lr.ltype ≠ LAYER_GROUP) :
    layer_try_from C lr =
      Except.error ("invalid layer type " ++ lr.ltype ++ " (id: "
        ++ idString lr.id ++ ", name: " ++ lr.name ++ ")") := by
  unfold layer_try_from
  rw [if_neg h1, if_neg h2, if_neg h3, if_neg h4]

/-- Witness for claim C4 at the concrete record `lrBogus` with declared
type `"bogus"`. -/
theorem claim_C4_witness :
    layer_try_from codecsW lrBogus =
      Except.error ("invalid layer type " ++ lrBogus.ltype ++ " (id: "
        ++ idString lrBogus.id ++ ", name: " ++ lrBogus.name ++ ")") :=
  claim_C4 codecsW lrBogus (by decide) (by decide) (by decide) (by decide)

/-- Claim C5: a tile-layer record with absent `data` decodes to the empty
gid sequence for every expected size (so neither a size-mismatch failure
nor `width * height` zeros), an explicitly-empty post-decompression byte
buffer likewise yields success with the empty sequence, and at the layer
level an absent `data` field resolves to a TileGrid with no gids. -/
theorem claim_C5 (C : Codecs) (size : Nat) (name : String)
    (compression : Option String) :
    (get_tile_layer_data C none size name compression = Except.ok [])
    ∧ (∀ s decoded, C.base64Decode s = some decoded →
        post_buffer C decoded compression = some [] →
        get_tile_layer_data C (some (TileLayerDataReader.Base64 s)) size name
          compression = Except.ok [])
    ∧ (∀ lr : LayerReader, lr.ltype = LAYER_TILE → lr.data = none →
        layer_try_from C lr =
          Except.ok (Layer.mk lr.id lr.name lr.opacity lr.visible lr.width
            lr.height lr.offsetx lr.offsety LayerType.TileLayer
            (LayerDataContainer.TileLayer []) (lr.properties.getD []))) := by
  refine ⟨rfl, ?_, ?_⟩
  · intro s decoded hb hp
    unfold get_tile_layer_data
    simp only
    rw [decode_after_post C s size name compression decoded [] hb hp]
    rfl
  · intro lr ht hd
    unfold layer_try_from
    simp only [ht, if_true, hd]
    rfl

/-- Witness for claim C5 at expected size 100 (a 10 by 10 layer), with the
record `lrAbsent` for the layer-level conjunct. -/
theorem claim_C5_witness :
    (get_tile_layer_data codecsE none 100 "e" none = Except.ok [])
    ∧ (get_tile_layer_data codecsE
        (some (TileLayerDataReader.Base64 "x")) 100 "e" none = Except.ok [])
    ∧ (layer_try_from codecsE lrAbsent =
        Except.ok (Layer.mk lrAbsent.id lrAbsent.name lrAbsent.opacity
          lrAbsent.visible lrAbsent.width lrAbsent.height lrAbsent.offsetx
          lrAbsent.offsety LayerType.TileLayer
          (LayerDataContainer.TileLayer []) (lrAbsent.properties.getD []))) :=
  ⟨(claim_C5 codecsE 100 "e" none).1,
   (claim_C5 codecsE 100 "e" none).2.1 "x" [] rfl rfl,
   (claim_C5 codecsE 100 "e" none).2.2 lrAbsent rfl rfl⟩

/-- Counterexample to claim C6: against the non-empty tileset list with
first-gids `[1, 50, 200]`, the query gid 0 (whose stripped value 0 is
below every first-gid) returns `None`, so `None` is not returned only when
the tileset list is empty. -/
theorem claim_C6_counterexample :
    tileset_by_gid [⟨1⟩, ⟨50⟩, ⟨200⟩] 0 = none
    ∧ ([⟨1⟩, ⟨50⟩, ⟨200⟩] : List Tileset) ≠ [] :=
  ⟨by decide, by decide⟩

/-- Claim C6 as amended: `tileset_by_gid` strips the three flip flags from
the gid and scans the tileset list in reverse order for the first tileset
whose first-gid is at most the stripped gid; the result is `None` exactly
when no tileset's first-gid is at most the stripped gid (in particular
when the list is empty, but also for in-range lists when the stripped gid
is below every first-gid); any returned tileset belongs to the list and
satisfies the bound, and the spec's examples hold: against first-gids
`[1, 50, 200]` a query of 75 returns the tileset with first-gid 50 and an
out-of-range query of 5000 still returns the last tileset, first-gid
200. -/
theorem claim_C6 (ts : List Tileset) (gid : Nat) :
    (tileset_by_gid ts gid = tileset_by_gid ts (gid_without_flags gid))
    ∧ (tileset_by_gid ts gid = none ↔
        ∀ t ∈ ts, ¬ t.firstgid ≤ gid_without_flags gid)
    ∧ (∀ t, tileset_by_gid ts gid = some t →
        t ∈ ts ∧ t.firstgid ≤ gid_without_flags gid)
    ∧ tileset_by_gid [⟨1⟩, ⟨50⟩, ⟨200⟩] 75 = some ⟨50⟩
    ∧ tileset_by_gid [⟨1⟩, ⟨50⟩, ⟨200⟩] 5000 = some ⟨200⟩ := by
  refine ⟨?_, ?_, ?_, by decide, by decide⟩
  · unfold tileset_by_gid gid_without_flags
    have : Nat.land (Nat.land gid 0x1FFFFFFF) 0x1FFFFFFF
        = Nat.land gid 0x1FFFFFFF := by
      show gid &&& 0x1FFFFFFF &&& 0x1FFFFFFF = gid &&& 0x1FFFFFFF
      rw [Nat.land_assoc]
      norm_num
    rw [this]
  · unfold tileset_by_gid
    rw [List.find?_eq_none]
    constructor
    · intro h t ht hle
      exact absurd (by simpa using h t (List.mem_reverse.mpr ht))
        (by simp [hle])
    · intro h t ht
      simp only [decide_eq_true_eq]
      exact h t (List.mem_reverse.mp ht)
  · intro t h
    unfold tileset_by_gid at h
    refine ⟨List.mem_reverse.mp (List.mem_of_find?_eq_some h), ?_⟩
    have := List.find?_some h
    simpa using this

/-- Witness for the amended claim C6 at the list with first-gids
`[1, 50, 200]` and query gid 75. -/
theorem claim_C6_witness :
    (tileset_by_gid [⟨1⟩, ⟨50⟩, ⟨200⟩] 75 =
      tileset_by_gid [⟨1⟩, ⟨50⟩, ⟨200⟩] (gid_without_flags 75))
    ∧ (tileset_by_gid [⟨1⟩, ⟨50⟩, ⟨200⟩] 75 = none ↔
        ∀ t ∈ ([⟨1⟩, ⟨50⟩, ⟨200⟩] : List Tileset),
          ¬ t.firstgid ≤ gid_without_flags 75)
    ∧ (∀ t, tileset_by_gid [⟨1⟩, ⟨50⟩, ⟨200⟩] 75 = some t →
        t ∈ ([⟨1⟩, ⟨50⟩, ⟨200⟩] : List Tileset)
        ∧ t.firstgid ≤ gid_without_flags 75)
    ∧ tileset_by_gid [⟨1⟩, ⟨50⟩, ⟨200⟩] 75 = some ⟨50⟩
    ∧ tileset_by_gid [⟨1⟩, ⟨50⟩, ⟨200⟩] 5000 = some ⟨200⟩ :=
  claim_C6 [⟨1⟩, ⟨50⟩, ⟨200⟩] 75

/-- Claim C7: a property whose raw value is an integer literal and whose
declared type is `"float"` resolves to a `Float`-tagged value holding the
integer exactly (never an `Int`-tagged value), and the resolver is a total
function preserving the property name — no input raises an error. -/
theorem claim_C7 (n : String) (x : Int) :
    property_from ⟨n, "float", PropertyValue.Int x⟩ =
      ⟨n, PropertyValue.Float (x : Rat)⟩
    ∧ isIntValue (property_from ⟨n, "float", PropertyValue.Int x⟩).value
        = false
    ∧ ∀ pl : PropertyLoader, (property_from pl).name = pl.name :=
  ⟨rfl, rfl, fun _ => rfl⟩

/-- Counterexample to claim C8: the numeric raw value 5/2 (a fractional
JSON literal, deserialized into the `Float` variant) with declared type
`"int"` stays `Float`-tagged — the resolver does not keep every numeric
raw with a non-float declared type as Integer. -/
theorem claim_C8_counterexample :
    property_from ⟨"p", "int", PropertyValue.Float ((5 : Rat) / 2)⟩ =
      ⟨"p", PropertyValue.Float ((5 : Rat) / 2)⟩
    ∧ isIntValue (property_from
        ⟨"p", "int", PropertyValue.Float ((5 : Rat) / 2)⟩).value = false :=
  ⟨rfl, rfl⟩

/-- Claim C8 as amended: a raw value deserialized as an integer literal
with a declared type other than `"float"` (such as `"int"`, `"bool"` or an
unrecognized name) keeps its `Int` tag, while a raw value deserialized as
a fractional number passes through `Float`-tagged for every declared
type. -/
theorem claim_C8 (n t : String) (x : Int) (q : Rat) :
    (t ≠ TYPE_FLOAT →
      property_from ⟨n, t, PropertyValue.Int x⟩ = ⟨n, PropertyValue.Int x⟩)
    ∧ property_from ⟨n, t, PropertyValue.Float q⟩ =
      ⟨n, PropertyValue.Float q⟩ := by
  constructor
  · intro ht
    unfold property_from
    simp [ht]
  · rfl

/-- Witness for the amended claim C8: the integer raw 5 declared `"int"`
keeps its tag, and the fractional raw 5/2 passes through `Float`-tagged
both under declared type `"int"` and under declared type `"float"`. -/
theorem claim_C8_witness :
    property_from ⟨"p", "int", PropertyValue.Int 5⟩ =
      ⟨"p", PropertyValue.Int 5⟩
    ∧ property_from ⟨"p", "int", PropertyValue.Float ((5 : Rat) / 2)⟩ =
      ⟨"p", PropertyValue.Float ((5 : Rat) / 2)⟩
    ∧ property_from ⟨"p", "float", PropertyValue.Float ((5 : Rat) / 2)⟩ =
      ⟨"p", PropertyValue.Float ((5 : Rat) / 2)⟩ :=
  ⟨(claim_C8 "p" "int" 5 ((5 : Rat) / 2)).1 (by decide),
   (claim_C8 "p" "int" 5 ((5 : Rat) / 2)).2,
   (claim_C8 "p" "float" 5 ((5 : Rat) / 2)).2⟩

/-- Counterexample to claim C9: `"#zzzzzz"` is not a well-formed
`#rrggbb` / `#aarrggbb` hex color, yet `Color::new` does not substitute
the fixed fallback color for it — each invalid digit parses as 0, giving
`{r 0, g 0, b 0, a 255}` instead of the sentinel `{r 255, g 0, b 255,
a 255}`. -/
theorem claim_C9_counterexample :
    wellFormedHexColor "#zzzzzz" = false
    ∧ Color.new "#zzzzzz" = ⟨0, 0, 0, 255⟩
    ∧ Color.new "#zzzzzz" ≠ Color.default_color :=
  ⟨by decide, by decide, by decide⟩

/-- Claim C9 as amended: the color parser never fails (it is a total
function); every string of the wrong character count or without a leading
`'#'` — in particular the spec's example `"notahexcolor"` — yields the
fixed fallback color, and a property declared `"color"` with that literal
resolves to the fallback; strings with the right shape but invalid hex
digits are instead parsed with each invalid digit as 0. -/
theorem claim_C9 (s : String)
    (h : (s.data.length ≠ 7 ∧ s.data.length ≠ 9)
      ∨ s.data.head? ≠ some '#') :
    Color.new s = Color.default_color
    ∧ Color.new "notahexcolor" = Color.default_color
    ∧ (∀ n : String,
        property_from ⟨n, "color", PropertyValue.StringV "notahexcolor"⟩ =
          ⟨n, PropertyValue.Color Color.default_color⟩) := by
  refine ⟨?_, by decide, fun n => rfl⟩
  unfold Color.new
  rw [if_pos h]

/-- Witness for the amended claim C9 at the string `"notahexcolor"`. -/
theorem claim_C9_witness :
    Color.new "notahexcolor" = Color.default_color
    ∧ Color.new "notahexcolor" = Color.default_color
    ∧ (∀ n : String,
        property_from ⟨n, "color", PropertyValue.StringV "notahexcolor"⟩ =
          ⟨n, PropertyValue.Color Color.default_color⟩) :=
  claim_C9 "notahexcolor" (by decide)

/-- Claim C10 (implicit): for a TileGrid layer and any position at most the
data length (hence every in-bounds position), the per-position flip
helpers return `false` (`is_flipped_hvd` all-false) and
`get_gid_without_flags` returns 0, whatever flag bits the stored gid
carries — the source guards the read with `data.len() < pos` instead of
`pos < data.len()`. -/
theorem claim_C10 (l : Layer) (data : List Nat) (pos : Nat)
    (hd : l.layerdata = LayerDataContainer.TileLayer data)
    (hpos : pos ≤ data.length) :
    l.is_flipped_horizontally pos = false
    ∧ l.is_flipped_vertically pos = false
    ∧ l.is_flipped_diagonally pos = false
    ∧ l.is_flipped_hvd pos = (false, false, false)
    ∧ l.get_gid_without_flags pos = 0 := by
  have hguard : ¬ data.length < pos := Nat.not_lt.mpr hpos
  refine ⟨?_, ?_, ?_, ?_, ?_⟩ <;>
    first
    | (unfold Layer.is_flipped_horizontally; rw [hd]; simp [hguard])
    | (unfold Layer.is_flipped_vertically; rw [hd]; simp [hguard])
    | (unfold Layer.is_flipped_diagonally; rw [hd]; simp [hguard])
    | (unfold Layer.is_flipped_hvd; rw [hd]; simp [hguard])
    | (unfold Layer.get_gid_without_flags; rw [hd]; simp [hguard])

/-- Witness for claim C10 at the concrete layer `layerFlip`, whose stored
gid `0x80000001` has the horizontal flip flag set, queried in bounds at
position 0. -/
theorem claim_C10_witness :
    layerFlip.is_flipped_horizontally 0 = false
    ∧ layerFlip.is_flipped_vertically 0 = false
    ∧ layerFlip.is_flipped_diagonally 0 = false
    ∧ layerFlip.is_flipped_hvd 0 = (false, false, false)
    ∧ layerFlip.get_gid_without_flags 0 = 0 :=
  claim_C10 layerFlip [0x80000001] 0 rfl (by decide)

end TiledJson
